import Mathlib

/-!
# The stb_image concolic harness (`harness_symcc.c`)

A shallow embedding of `fuzzers/libfuzzer_stb_image_concolic_nh/fuzzer/harness_symcc.c`.

* C `int` is a 32-bit two's-complement integer: an `Int` together with a proof that it lies
  in `[INT_MIN, INT_MAX]`.  Integer division is C's truncating division; dividing by zero and
  a quotient outside the `int` range are undefined behaviour, modelled by `none`.
* The decoder (`stbi_info`, `stbi_load`), the allocator (`free`) and the coverage runtime
  (`__xsanitizer_cov_trace_pc_guard*`) are external: they are parameters of the embedding,
  arbitrary functions on an abstract world state `σ`.
* Every call that leaves the translation unit is appended to a trace, so that "is invoked",
  "is never invoked" and "exactly once" are statements about the trace of a run.
-/

namespace Harness

/-! ## Machine integers -/

/-- Smallest value of a C `int`. -/
abbrev INT_MIN : Int := -2147483648

/-- Largest value of a C `int`. -/
abbrev INT_MAX : Int := 2147483647

/-- Membership in the range of a C `int`. -/
abbrev InRange (n : Int) : Prop := INT_MIN ≤ n ∧ n ≤ INT_MAX

/-- A C `int`. -/
abbrev CInt : Type := { n : Int // InRange n }

/-- An `int` literal of the source text. -/
abbrev lit (n : Int) (h : InRange n) : CInt := ⟨n, h⟩

/-- C's `a / b` on `int`: truncation toward zero; undefined (`none`) when the divisor is zero
or when the quotient is not representable. -/
def idiv (a b : CInt) : Option CInt :=
  if b.val = 0 then none
  else if h : InRange (Int.tdiv a.val b.val) then some ⟨Int.tdiv a.val b.val, h⟩
  else none

/-! ## Externalsal collaborators and the call trace -/

/-- An object pointer: an address, `0` being the null pointer. -/
abbrev Ptr : Type := Nat

/-- What `stbi_info(filename, &x, &y, &comp)` leaves behind: its return value and the contents
of the three `int` objects it was handed. -/
structure InfoResult where
  ret : CInt
  x : CInt
  y : CInt
  comp : CInt

/-- What `stbi_load(filename, &x, &y, &comp, req_comp)` leaves behind: the returned pointer
(possibly null) and the contents of the three `int` objects it was handed. -/
structure LoadResult where
  img : Ptr
  x : CInt
  y : CInt
  comp : CInt

/-- A call that leaves the translation unit, with its actual arguments. -/
inductive Call where
  | stbi_info (filename : String)
  | stbi_load (filename : String) (req_comp : CInt)
  | free (ptr : Ptr)
  | __xsanitizer_cov_trace_pc_guard_init (x y : Ptr)
  | __xsanitizer_cov_trace_pc_guard (x : Ptr)

/-- The functions the translation unit calls but does not define, as arbitrary functions on
an abstract world state `σ` (file system, heap, coverage map). -/
structure Externals (σ : Type) where
  stbi_info : String → σ → InfoResult × σ
  stbi_load : String → CInt → σ → LoadResult × σ
  free : Ptr → σ → σ
  __xsanitizer_cov_trace_pc_guard_init : Ptr → Ptr → σ → σ
  __xsanitizer_cov_trace_pc_guard : Ptr → σ → σ

/-- The state of a run: the world the externals act on and the calls made so far. -/
structure Machine (σ : Type) where
  world : σ
  trace : List Call

/-- A computation of the translation unit: it may call externals (state) and may be
undefined (`none`). -/
abbrev Exec (σ : Type) (α : Type) : Type := StateT (Machine σ) Option α

/-- Call `stbi_info(filename, &x, &y, &comp)`. -/
def call_stbi_info {σ : Type} (E : Externals σ) (filename : String) : Exec σ InfoResult :=
  fun m => some ((E.stbi_info filename m.world).1,
    { world := (E.stbi_info filename m.world).2, trace := m.trace ++ [Call.stbi_info filename] })

/-- Call `stbi_load(filename, &x, &y, &comp, req_comp)`. -/
def call_stbi_load {σ : Type} (E : Externals σ) (filename : String) (req_comp : CInt) :
    Exec σ LoadResult :=
  fun m => some ((E.stbi_load filename req_comp m.world).1,
    { world := (E.stbi_load filename req_comp m.world).2,
      trace := m.trace ++ [Call.stbi_load filename req_comp] })

/-- Call `free(ptr)`. -/
def call_free {σ : Type} (E : Externals σ) (ptr : Ptr) : Exec σ Unit :=
  fun m => some ((), { world := E.free ptr m.world, trace := m.trace ++ [Call.free ptr] })

/-- Call `__xsanitizer_cov_trace_pc_guard_init(x, y)`. -/
def call_xsanitizer_cov_trace_pc_guard_init {σ : Type} (E : Externals σ) (x y : Ptr) :
    Exec σ Unit :=
  fun m => some ((), { world := E.__xsanitizer_cov_trace_pc_guard_init x y m.world,
                       trace := m.trace ++ [Call.__xsanitizer_cov_trace_pc_guard_init x y] })

/-- Call `__xsanitizer_cov_trace_pc_guard(x)`. -/
def call_xsanitizer_cov_trace_pc_guard {σ : Type} (E : Externals σ) (x : Ptr) : Exec σ Unit :=
  fun m => some ((), { world := E.__xsanitizer_cov_trace_pc_guard x m.world,
                       trace := m.trace ++ [Call.__xsanitizer_cov_trace_pc_guard x] })

/-! ## The translation unit -/

/-- The controlling expression `y && x > (80000000 / 4) / y` of the size guard.  `&&`
evaluates its right operand only when the left one is non-zero. -/
def sizeGuard (x y : CInt) : Option Bool :=
  if y.val = 0 then some false
  else do
    let limit ← idiv (lit 80000000 (by decide)) (lit 4 (by decide))
    let q ← idiv limit y
    pure (decide (x.val > q.val))

/-- The function `int main(int argc, char **argv)`.  `argv i` is the string `argv[i]`. -/
def main {σ : Type} (E : Externals σ) (argc : CInt) (argv : Nat → String) : Exec σ CInt := do
  if argc.val < 2 then return lit (-1) (by decide)
  let file_path := argv 1
  let r ← call_stbi_info E file_path
  if r.ret.val = 0 then return lit 0 (by decide)
  if (← (sizeGuard r.x r.y : Option Bool)) then return lit 0 (by decide)
  let l ← call_stbi_load E file_path (lit 4 (by decide))
  call_free E l.img
  return lit 0 (by decide)

/-- The function `void __sanitizer_cov_trace_pc_guard_init(uint32_t *x, uint32_t *y)`. -/
def __sanitizer_cov_trace_pc_guard_init {σ : Type} (E : Externals σ) (x y : Ptr) : Exec σ Unit :=
  call_xsanitizer_cov_trace_pc_guard_init E x y

/-- The function `void __sanitizer_cov_trace_pc_guard(uint32_t *x)`. -/
def __sanitizer_cov_trace_pc_guard {σ : Type} (E : Externals σ) (x : Ptr) : Exec σ Unit :=
  call_xsanitizer_cov_trace_pc_guard E x

/-- The machine at program start: the given world and no call made yet. -/
def start {σ : Type} (w : σ) : Machine σ := { world := w, trace := [] }

/-- An argument vector holding the given strings; reading past its end gives `""`. -/
def argvOf (args : List String) : Nat → String := fun i => args.getD i ""

/-! ## Concrete collaborators, used to instantiate the results below -/

/-- A decoder, over a trivial world, whose header query always leaves `r` behind and whose
full decode always leaves `l` behind. -/
def fixedDecoder (r : InfoResult) (l : LoadResult) : Externals Unit where
  stbi_info := fun _ _ => (r, ())
  stbi_load := fun _ _ _ => (l, ())
  free := fun _ _ => ()
  __xsanitizer_cov_trace_pc_guard_init := fun _ _ _ => ()
  __xsanitizer_cov_trace_pc_guard := fun _ _ => ()

/-- A failed header query. -/
def failedHeader : InfoResult :=
  { ret := lit 0 (by decide), x := lit 0 (by decide), y := lit 0 (by decide),
    comp := lit 0 (by decide) }

/-- A header declaring a 1 x 1 image. -/
def tinyHeader : InfoResult :=
  { ret := lit 1 (by decide), x := lit 1 (by decide), y := lit 1 (by decide),
    comp := lit 4 (by decide) }

/-- A header declaring width 1,000,000 and height 1,000,000. -/
def hugeHeader : InfoResult :=
  { ret := lit 1 (by decide), x := lit 1000000 (by decide), y := lit 1000000 (by decide),
    comp := lit 4 (by decide) }

/-- A header declaring width 10,000,000 and height 0. -/
def zeroHeightHeader : InfoResult :=
  { ret := lit 1 (by decide), x := lit 10000000 (by decide), y := lit 0 (by decide),
    comp := lit 4 (by decide) }

/-- A header declaring a 5000 x 4000 image: exactly 20,000,000 pixels. -/
def limitHeader : InfoResult :=
  { ret := lit 1 (by decide), x := lit 5000 (by decide), y := lit 4000 (by decide),
    comp := lit 4 (by decide) }

/-- A successful full decode of a 1 x 1 image into a buffer at address 4096. -/
def tinyLoad : LoadResult :=
  { img := 4096, x := lit 1 (by decide), y := lit 1 (by decide), comp := lit 4 (by decide) }

/-- A failed full decode: the null pointer. -/
def nullLoad : LoadResult :=
  { img := 0, x := lit 0 (by decide), y := lit 0 (by decide), comp := lit 0 (by decide) }

/-! ## Auxiliary facts -/

theorem tdiv_limit_inRange (y : Int) : InRange (Int.tdiv 20000000 y) := by
  show (-2147483648 : Int) ≤ Int.tdiv 20000000 y ∧ Int.tdiv 20000000 y ≤ 2147483647
  rcases Int.le_total 0 y with hy | hy
  · rw [Int.tdiv_eq_ediv (by decide) hy]
    have h1 : (20000000 : Int) / y ≤ 20000000 := Int.ediv_le_self y (by decide)
    have h2 : 0 ≤ (20000000 : Int) / y := Int.ediv_nonneg (by decide) hy
    constructor <;> omega
  · obtain ⟨z, rfl⟩ : ∃ z, y = -z := ⟨-y, by omega⟩
    have hz : 0 ≤ z := by omega
    rw [Int.tdiv_neg, Int.tdiv_eq_ediv (by decide) hz]
    have h1 : (20000000 : Int) / z ≤ 20000000 := Int.ediv_le_self z (by decide)
    have h2 : 0 ≤ (20000000 : Int) / z := Int.ediv_nonneg (by decide) hz
    constructor <;> omega

theorem idiv_limit :
    idiv (lit 80000000 (by decide)) (lit 4 (by decide)) = some (lit 20000000 (by decide)) := by
  decide

theorem idiv_of_inRange (a b : CInt) (hb : b.val ≠ 0) (h : InRange (Int.tdiv a.val b.val)) :
    idiv a b = some ⟨Int.tdiv a.val b.val, h⟩ := by
  unfold idiv
  rw [if_neg hb, dif_pos h]

theorem idiv_limit_by (y : CInt) (hy : y.val ≠ 0) :
    idiv (lit 20000000 (by decide)) y
      = some ⟨Int.tdiv 20000000 y.val, tdiv_limit_inRange y.val⟩ :=
  idiv_of_inRange (lit 20000000 (by decide)) y hy (tdiv_limit_inRange y.val)

theorem sizeGuard_eq (x y : CInt) :
    sizeGuard x y = some (decide (y.val ≠ 0 ∧ x.val > Int.tdiv 20000000 y.val)) := by
  unfold sizeGuard
  by_cases hy : y.val = 0
  · simp [hy]
  · simp [hy, idiv_limit, idiv_limit_by y hy]
    exact Iff.rfl

theorem exec_pure {σ α : Type} (a : α) (m : Machine σ) :
    (pure a : Exec σ α) m = some (a, m) := rfl

theorem exec_bind {σ α β : Type} (x : Exec σ α) (f : α → Exec σ β) (m : Machine σ) :
    (x >>= f) m = (x m).bind (fun p => f p.1 p.2) := by
  show (x m >>= fun p => f p.1 p.2) = (x m).bind (fun p => f p.1 p.2)
  rfl

theorem exec_map {σ α β : Type} (f : α → β) (x : Exec σ α) (m : Machine σ) :
    (f <$> x) m = (x m).map (fun p => (f p.1, p.2)) := by
  show (x m >>= fun p => pure (f p.1, p.2)) = (x m).map (fun p => (f p.1, p.2))
  cases x m <;> rfl

theorem exec_lift {σ α : Type} (o : Option α) (m : Machine σ) :
    (liftM o : Exec σ α) m = o.map (fun a => (a, m)) := by
  cases o <;> rfl

theorem main_eq {σ : Type} (E : Externals σ) (argc : CInt) (argv : Nat → String) (w : σ) :
    main E argc argv (start w) =
      if argc.val < 2 then some (lit (-1) (by decide), start w)
      else if (E.stbi_info (argv 1) w).1.ret.val = 0 then
        some (lit 0 (by decide),
          { world := (E.stbi_info (argv 1) w).2, trace := [Call.stbi_info (argv 1)] })
      else if (E.stbi_info (argv 1) w).1.y.val ≠ 0 ∧
          (E.stbi_info (argv 1) w).1.x.val > Int.tdiv 20000000 (E.stbi_info (argv 1) w).1.y.val then
        some (lit 0 (by decide),
          { world := (E.stbi_info (argv 1) w).2, trace := [Call.stbi_info (argv 1)] })
      else
        some (lit 0 (by decide),
          { world := E.free (E.stbi_load (argv 1) (lit 4 (by decide)) (E.stbi_info (argv 1) w).2).1.img
              (E.stbi_load (argv 1) (lit 4 (by decide)) (E.stbi_info (argv 1) w).2).2,
            trace := [Call.stbi_info (argv 1), Call.stbi_load (argv 1) (lit 4 (by decide)),
              Call.free (E.stbi_load (argv 1) (lit 4 (by decide)) (E.stbi_info (argv 1) w).2).1.img] }) := by
  unfold main
  by_cases h1 : argc.val < 2
  · rw [if_pos h1, if_pos h1]
    rfl
  · rw [if_neg h1, if_neg h1]
    by_cases h2 : (E.stbi_info (argv 1) w).1.ret.val = 0
    · simp [h2, call_stbi_info, start, exec_pure, exec_bind]
    · by_cases h3 : (E.stbi_info (argv 1) w).1.y.val ≠ 0 ∧
          (E.stbi_info (argv 1) w).1.x.val > Int.tdiv 20000000 (E.stbi_info (argv 1) w).1.y.val
      · simp [h2, h3, call_stbi_info, start, exec_pure, exec_bind, exec_lift, sizeGuard_eq]
      · simp [h2, h3, call_stbi_info, start, exec_pure, exec_bind, exec_lift, exec_map,
          sizeGuard_eq, call_stbi_load, call_free]

/-! ## The harness entry point -/

/-- C1: when `argc < 2`, `main` returns `-1` and makes no external call at all: the trace of the
run is empty (neither `stbi_info` nor `stbi_load` is invoked) and the world is untouched. -/
theorem main_missing_argument {σ : Type} (E : Externals σ) (argc : CInt) (argv : Nat → String)
    (w : σ) (h : argc.val < 2) :
    ∃ st, main E argc argv (start w) = some st ∧
      st.1.val = -1 ∧ st.2.trace = [] ∧ st.2.world = w := by
  refine ⟨(lit (-1) (by decide), start w), ?_, rfl, rfl, rfl⟩
  rw [main_eq, if_pos h]

theorem main_missing_argument_witness :
    (lit 1 (by decide)).val < 2 ∧
    ∃ st, main (fixedDecoder tinyHeader tinyLoad) (lit 1 (by decide)) (argvOf ["harness"])
        (start ()) = some st ∧
      st.1.val = -1 ∧ st.2.trace = [] ∧ st.2.world = () :=
  ⟨by decide, main_missing_argument (fixedDecoder tinyHeader tinyLoad) (lit 1 (by decide))
    (argvOf ["harness"]) () (by decide)⟩

/-- C2: when `argc >= 2`, whatever the decoder does (header query succeeding or failing, any
reported dimensions, full decode returning a buffer or null), `main` returns, and the value it
returns is exactly `0`. -/
theorem main_returns_zero {σ : Type} (E : Externals σ) (argc : CInt) (argv : Nat → String)
    (w : σ) (h : 2 ≤ argc.val) :
    ∃ st, main E argc argv (start w) = some st ∧ st.1.val = 0 := by
  rw [main_eq, if_neg (by omega)]
  split_ifs <;> exact ⟨_, rfl, rfl⟩

theorem main_returns_zero_witness :
    2 ≤ (lit 2 (by decide)).val ∧
    ∃ st, main (fixedDecoder tinyHeader nullLoad) (lit 2 (by decide))
        (argvOf ["harness", "tiny-valid.png"]) (start ()) = some st ∧ st.1.val = 0 :=
  ⟨by decide, main_returns_zero (fixedDecoder tinyHeader nullLoad) (lit 2 (by decide))
    (argvOf ["harness", "tiny-valid.png"]) () (by decide)⟩

/-- C3: when `argc >= 2` and `stbi_info` on `argv[1]` returns `0`, `main` returns `0` having made
that one call and nothing else: `stbi_load` and `free` do not occur in the trace, and the world
is the one the header query left. -/
theorem main_header_failure {σ : Type} (E : Externals σ) (argc : CInt) (argv : Nat → String)
    (w : σ) (h : 2 ≤ argc.val) (hfail : (E.stbi_info (argv 1) w).1.ret.val = 0) :
    ∃ st, main E argc argv (start w) = some st ∧ st.1.val = 0 ∧
      st.2.trace = [Call.stbi_info (argv 1)] ∧
      (∀ f c, Call.stbi_load f c ∉ st.2.trace) ∧ (∀ p, Call.free p ∉ st.2.trace) ∧
      st.2.world = (E.stbi_info (argv 1) w).2 := by
  rw [main_eq, if_neg (by omega), if_pos hfail]
  exact ⟨_, rfl, rfl, rfl, by simp, by simp, rfl⟩

theorem main_header_failure_witness :
    2 ≤ (lit 2 (by decide)).val ∧
    ((fixedDecoder failedHeader tinyLoad).stbi_info
      (argvOf ["harness", "/nonexistent"] 1) ()).1.ret.val = 0 ∧
    ∃ st, main (fixedDecoder failedHeader tinyLoad) (lit 2 (by decide))
        (argvOf ["harness", "/nonexistent"]) (start ()) = some st ∧ st.1.val = 0 ∧
      st.2.trace = [Call.stbi_info (argvOf ["harness", "/nonexistent"] 1)] ∧
      (∀ f c, Call.stbi_load f c ∉ st.2.trace) ∧ (∀ p, Call.free p ∉ st.2.trace) ∧
      st.2.world = ((fixedDecoder failedHeader tinyLoad).stbi_info
        (argvOf ["harness", "/nonexistent"] 1) ()).2 :=
  ⟨by decide, by decide, main_header_failure (fixedDecoder failedHeader tinyLoad)
    (lit 2 (by decide)) (argvOf ["harness", "/nonexistent"]) () (by decide) (by decide)⟩

/-- C4: when the header query succeeds and reports `height > 0` and
`width > ⌊20,000,000 / height⌋`, `main` returns `0` and `stbi_load` is never invoked: the only
call of the run is the header query. -/
theorem main_size_guard_trips {σ : Type} (E : Externals σ) (argc : CInt) (argv : Nat → String)
    (w : σ) (h : 2 ≤ argc.val) (hok : (E.stbi_info (argv 1) w).1.ret.val ≠ 0)
    (hy : 0 < (E.stbi_info (argv 1) w).1.y.val)
    (hx : (E.stbi_info (argv 1) w).1.x.val > 20000000 / (E.stbi_info (argv 1) w).1.y.val) :
    ∃ st, main E argc argv (start w) = some st ∧ st.1.val = 0 ∧
      st.2.trace = [Call.stbi_info (argv 1)] ∧ (∀ f c, Call.stbi_load f c ∉ st.2.trace) := by
  have hg : (E.stbi_info (argv 1) w).1.y.val ≠ 0 ∧
      (E.stbi_info (argv 1) w).1.x.val > Int.tdiv 20000000 (E.stbi_info (argv 1) w).1.y.val := by
    rw [Int.tdiv_eq_ediv (by decide) (Int.le_of_lt hy)]
    exact ⟨by omega, hx⟩
  rw [main_eq, if_neg (by omega), if_neg hok, if_pos hg]
  exact ⟨_, rfl, rfl, rfl, by simp⟩

theorem main_size_guard_trips_witness :
    2 ≤ (lit 2 (by decide)).val ∧
    ((fixedDecoder hugeHeader tinyLoad).stbi_info
      (argvOf ["harness", "huge-header.png"] 1) ()).1.ret.val ≠ 0 ∧
    0 < ((fixedDecoder hugeHeader tinyLoad).stbi_info
      (argvOf ["harness", "huge-header.png"] 1) ()).1.y.val ∧
    ((fixedDecoder hugeHeader tinyLoad).stbi_info
      (argvOf ["harness", "huge-header.png"] 1) ()).1.x.val >
      20000000 / ((fixedDecoder hugeHeader tinyLoad).stbi_info
        (argvOf ["harness", "huge-header.png"] 1) ()).1.y.val ∧
    ∃ st, main (fixedDecoder hugeHeader tinyLoad) (lit 2 (by decide))
        (argvOf ["harness", "huge-header.png"]) (start ()) = some st ∧ st.1.val = 0 ∧
      st.2.trace = [Call.stbi_info (argvOf ["harness", "huge-header.png"] 1)] ∧
      (∀ f c, Call.stbi_load f c ∉ st.2.trace) :=
  ⟨by decide, by decide, by decide, by decide,
    main_size_guard_trips (fixedDecoder hugeHeader tinyLoad) (lit 2 (by decide))
      (argvOf ["harness", "huge-header.png"]) () (by decide) (by decide) (by decide)
      (by decide)⟩

/-- C5: when the header query succeeds and reports `height == 0`, `main` invokes
`stbi_load(argv[1], .., 4)` whatever the reported width is. -/
theorem main_zero_height_decodes {σ : Type} (E : Externals σ) (argc : CInt)
    (argv : Nat → String) (w : σ) (h : 2 ≤ argc.val)
    (hok : (E.stbi_info (argv 1) w).1.ret.val ≠ 0)
    (hy : (E.stbi_info (argv 1) w).1.y.val = 0) :
    ∃ st, main E argc argv (start w) = some st ∧
      Call.stbi_load (argv 1) (lit 4 (by decide)) ∈ st.2.trace := by
  rw [main_eq, if_neg (by omega), if_neg hok, if_neg (fun hg => hg.1 hy)]
  exact ⟨_, rfl, by simp⟩

theorem main_zero_height_decodes_witness :
    2 ≤ (lit 2 (by decide)).val ∧
    ((fixedDecoder zeroHeightHeader nullLoad).stbi_info
      (argvOf ["harness", "zero-height.png"] 1) ()).1.ret.val ≠ 0 ∧
    ((fixedDecoder zeroHeightHeader nullLoad).stbi_info
      (argvOf ["harness", "zero-height.png"] 1) ()).1.y.val = 0 ∧
    ∃ st, main (fixedDecoder zeroHeightHeader nullLoad) (lit 2 (by decide))
        (argvOf ["harness", "zero-height.png"]) (start ()) = some st ∧
      Call.stbi_load (argvOf ["harness", "zero-height.png"] 1) (lit 4 (by decide))
        ∈ st.2.trace :=
  ⟨by decide, by decide, by decide,
    main_zero_height_decodes (fixedDecoder zeroHeightHeader nullLoad) (lit 2 (by decide))
      (argvOf ["harness", "zero-height.png"]) () (by decide) (by decide) (by decide)⟩

/-- C6: size-guard invariant.  Whenever the header query reports non-negative width and
height, `main` returns, and if `stbi_load` occurs in the trace of the run then the header query
had succeeded and `width * height <= 20,000,000`, the product taken over the integers. -/
theorem main_decode_within_limit {σ : Type} (E : Externals σ) (argc : CInt)
    (argv : Nat → String) (w : σ)
    (_hx : 0 ≤ (E.stbi_info (argv 1) w).1.x.val) (hy : 0 ≤ (E.stbi_info (argv 1) w).1.y.val) :
    ∃ st, main E argc argv (start w) = some st ∧
      ((∃ f c, Call.stbi_load f c ∈ st.2.trace) →
        (E.stbi_info (argv 1) w).1.ret.val ≠ 0 ∧
        (E.stbi_info (argv 1) w).1.x.val * (E.stbi_info (argv 1) w).1.y.val ≤ 20000000) := by
  rw [main_eq]
  split_ifs with h1 h2 h3
  · exact ⟨_, rfl, by simp [start]⟩
  · exact ⟨_, rfl, by simp⟩
  · exact ⟨_, rfl, by simp⟩
  · refine ⟨_, rfl, fun _ => ⟨h2, ?_⟩⟩
    rcases lt_or_eq_of_le hy with hpos | hzero
    · have hle : (E.stbi_info (argv 1) w).1.x.val ≤
          20000000 / (E.stbi_info (argv 1) w).1.y.val := by
        have hn : ¬ (E.stbi_info (argv 1) w).1.x.val >
            Int.tdiv 20000000 (E.stbi_info (argv 1) w).1.y.val :=
          fun hgt => h3 ⟨by omega, hgt⟩
        rw [Int.tdiv_eq_ediv (by decide) hy] at hn
        omega
      exact (Int.le_ediv_iff_mul_le hpos).1 hle
    · rw [← hzero, Int.mul_zero]
      decide

theorem main_decode_within_limit_witness :
    0 ≤ ((fixedDecoder limitHeader tinyLoad).stbi_info
      (argvOf ["harness", "limit.png"] 1) ()).1.x.val ∧
    0 ≤ ((fixedDecoder limitHeader tinyLoad).stbi_info
      (argvOf ["harness", "limit.png"] 1) ()).1.y.val ∧
    ∃ st, main (fixedDecoder limitHeader tinyLoad) (lit 2 (by decide))
        (argvOf ["harness", "limit.png"]) (start ()) = some st ∧
      ((∃ f c, Call.stbi_load f c ∈ st.2.trace) →
        ((fixedDecoder limitHeader tinyLoad).stbi_info
          (argvOf ["harness", "limit.png"] 1) ()).1.ret.val ≠ 0 ∧
        ((fixedDecoder limitHeader tinyLoad).stbi_info
          (argvOf ["harness", "limit.png"] 1) ()).1.x.val *
        ((fixedDecoder limitHeader tinyLoad).stbi_info
          (argvOf ["harness", "limit.png"] 1) ()).1.y.val ≤ 20000000) :=
  ⟨by decide, by decide,
    main_decode_within_limit (fixedDecoder limitHeader tinyLoad) (lit 2 (by decide))
      (argvOf ["harness", "limit.png"]) () (by decide) (by decide)⟩

/-- C7: buffer release.  Every run of `main` returns.  If `stbi_load` occurs in its trace, the
trace is exactly `stbi_info`, `stbi_load`, `free p` with `p` the pointer that `stbi_load`
returned (buffer or null): `free` is called once, on that pointer, right after the decode and
as the last call before the return, and the final world is the one `free` left.  If
`stbi_load` does not occur, neither does `free`. -/
theorem main_releases_buffer {σ : Type} (E : Externals σ) (argc : CInt) (argv : Nat → String)
    (w : σ) :
    ∃ st, main E argc argv (start w) = some st ∧
      ((∃ f c, Call.stbi_load f c ∈ st.2.trace) →
        st.2.trace =
          [Call.stbi_info (argv 1), Call.stbi_load (argv 1) (lit 4 (by decide)),
            Call.free (E.stbi_load (argv 1) (lit 4 (by decide))
              (E.stbi_info (argv 1) w).2).1.img] ∧
        st.2.world =
          E.free (E.stbi_load (argv 1) (lit 4 (by decide)) (E.stbi_info (argv 1) w).2).1.img
            (E.stbi_load (argv 1) (lit 4 (by decide)) (E.stbi_info (argv 1) w).2).2) ∧
      ((¬ ∃ f c, Call.stbi_load f c ∈ st.2.trace) → ∀ p, Call.free p ∉ st.2.trace) := by
  rw [main_eq]
  split_ifs with h1 h2 h3
  · exact ⟨_, rfl, by simp [start], by simp [start]⟩
  · exact ⟨_, rfl, by simp, by simp⟩
  · exact ⟨_, rfl, by simp, by simp⟩
  · exact ⟨_, rfl, fun _ => ⟨rfl, rfl⟩, 
      fun hno => absurd ⟨argv 1, lit 4 (by decide), by simp⟩ hno⟩

/-! ## The coverage shims -/

/-- C8: each coverage shim forwards its arguments verbatim.  From any machine state,
`__sanitizer_cov_trace_pc_guard_init(x, y)` returns after adding exactly the one call
`__xsanitizer_cov_trace_pc_guard_init(x, y)` to the trace, arguments in the same order, and
`__sanitizer_cov_trace_pc_guard(x)` after adding exactly the one call
`__xsanitizer_cov_trace_pc_guard(x)`; the world changes only by what that call does. -/
theorem coverage_shims_forward {σ : Type} (E : Externals σ) (x y : Ptr) (m : Machine σ) :
    __sanitizer_cov_trace_pc_guard_init E x y m =
        some ((), { world := E.__xsanitizer_cov_trace_pc_guard_init x y m.world,
                    trace := m.trace ++ [Call.__xsanitizer_cov_trace_pc_guard_init x y] }) ∧
    __sanitizer_cov_trace_pc_guard E x m =
        some ((), { world := E.__xsanitizer_cov_trace_pc_guard x m.world,
                    trace := m.trace ++ [Call.__xsanitizer_cov_trace_pc_guard x] }) :=
  ⟨rfl, rfl⟩

/-! ## The size guard -/

/-- C9: for `x >= 0` and `y > 0`, the guard expression `y && x > (80000000 / 4) / y` evaluates
without undefined behaviour, and it is true exactly when `x * y > 20,000,000` over the
integers. -/
theorem sizeGuard_iff_product {x y : CInt} (_hx : 0 ≤ x.val) (hy : 0 < y.val) :
    sizeGuard x y = some (decide (x.val * y.val > 20000000)) := by
  rw [sizeGuard_eq, Int.tdiv_eq_ediv (by decide) (Int.le_of_lt hy)]
  have hiff : (y.val ≠ 0 ∧ x.val > 20000000 / y.val) ↔ x.val * y.val > 20000000 :=
    ⟨fun hg => (Int.ediv_lt_iff_lt_mul hy).1 hg.2,
     fun hp => ⟨by omega, (Int.ediv_lt_iff_lt_mul hy).2 hp⟩⟩
  simp only [hiff]

theorem sizeGuard_iff_product_witness :
    0 ≤ (lit 5000 (by decide)).val ∧ 0 < (lit 4000 (by decide)).val ∧
    sizeGuard (lit 5000 (by decide)) (lit 4000 (by decide))
      = some (decide ((lit 5000 (by decide)).val * (lit 4000 (by decide)).val > 20000000)) :=
  ⟨by decide, by decide, sizeGuard_iff_product (by decide) (by decide)⟩

/-- C10: the size guard is defined for every pair of `int` values.  `80000000 / 4` is the
representable value `20000000`; for every `y != 0` the quotient `20000000 / y` is representable;
when `y == 0` the guard is false without the division being evaluated (a division by zero
would be undefined); so the guard expression always has a value. -/
theorem sizeGuard_defined (x y : CInt) :
    idiv (lit 80000000 (by decide)) (lit 4 (by decide)) = some (lit 20000000 (by decide)) ∧
    (y.val ≠ 0 → ∃ q, idiv (lit 20000000 (by decide)) y = some q ∧
      q.val = Int.tdiv 20000000 y.val) ∧
    (y.val = 0 → idiv (lit 20000000 (by decide)) y = none ∧ sizeGuard x y = some false) ∧
    ∃ b, sizeGuard x y = some b := by
  refine ⟨idiv_limit, fun hy => ⟨_, idiv_limit_by y hy, rfl⟩, fun hy => ⟨?_, ?_⟩,
    ⟨_, sizeGuard_eq x y⟩⟩
  · simp [idiv, hy]
  · simp [sizeGuard, hy]

end Harness
